import Mathlib

/-!
Verification of the JSON-RPC 2.0 client in src/jquery.jsonrpcclient.js.

The client's protocol-state logic is shallowly embedded below:

* JSON values that flow through the client are modelled by the inductive
  type JVal.  JavaScript's distinct undefined value (the result of reading
  an absent property) is the constructor JVal.undefined; a top-level JSON
  array (batch request, batch response) is modelled as List JVal, since no
  claim inspects array-valued fields of an object.
* JavaScript property keys are strings; the coercion of an arbitrary value
  used as a computed key (for example the response id indexing
  _ws_callbacks) is jsKey, mirroring ToPropertyKey/ToString.
* Plain JS objects used as maps (_ws_callbacks on the prototype and the
  per-flush handlers map of endBatch) are association lists with the
  replace-or-append semantics of property assignment and the filter
  semantics of delete.
* Callbacks are opaque values of an abstract type CB; a callback variable
  that may be undefined is Option CB (none is undefined).  Invoking a
  callback is recorded as an Effect value; calling undefined raises a
  TypeError, which the embedding records as an aborted computation.
* The external collaborators are represented at their interfaces: the
  payload handed to $.parseJSON appears as an already-parsed
  Except Unit JVal (the error case is the parse exception that the
  router's try/catch swallows), and $.toJSON is dropped since the
  embedding sends the request value itself over the modelled socket.
-/

set_option autoImplicit false

namespace JsonRpcClient

/-- The values the client manipulates.  The first constructor is
JavaScript's undefined; objects are association lists of fields in
insertion order. -/
inductive JVal : Type where
  | undefined : JVal
  | null : JVal
  | bool : Bool → JVal
  | num : Int → JVal
  | str : String → JVal
  | obj : List (String × JVal) → JVal

/-- The in operator: true exactly when the value is an object having the
field.  On every non-object value the source's uses either evaluate to
false or raise a TypeError that the surrounding try/catch swallows, which
the call sites model explicitly. -/
def hasField : JVal → String → Bool
  | .obj fields, k => fields.any (fun p => p.1 == k)
  | _, _ => false

/-- Property read with JavaScript semantics: an absent field, or a read on
a non-object, yields undefined. -/
def getFieldD : JVal → String → JVal
  | .obj fields, k =>
    match fields.find? (fun p => p.1 == k) with
    | some p => p.2
    | none => .undefined
  | _, _ => .undefined

/-- The strict comparison response.id === null used at line 259. -/
def isNull : JVal → Bool
  | .null => true
  | _ => false

/-- The check response.jsonrpc === '2.0' at line 345. -/
def isStr20 : JVal → Bool
  | .str s => s == "2.0"
  | _ => false

/-- JavaScript ToPropertyKey: the string a value becomes when used as a
computed object key, as in this._ws_callbacks[response.id]. -/
def jsKey : JVal → String
  | .undefined => "undefined"
  | .null => "null"
  | .bool b => cond b "true" "false"
  | .num n => toString n
  | .str s => s
  | .obj _ => "[object Object]"

/-- The key under which a response is looked up in a callback map:
jsKey of its id property (line 350, 363, 259 ff.). -/
def respKey (r : JVal) : String := jsKey (getFieldD r "id")

/-- One entry of _ws_callbacks (line 52) or of the per-flush handlers map
(lines 224-227): the pair of continuations stored for a call.  Either
slot can hold undefined when the caller omitted the argument. -/
structure Handler (CB : Type) : Type where
  success_cb : Option CB
  error_cb : Option CB

/-- A plain JS object used as a map from (string) keys to handlers. -/
abbrev Registry (CB : Type) : Type := List (String × Handler CB)

/-- Property read obj[k] on a callback map. -/
def rLookup {CB : Type} (r : Registry CB) (k : String) : Option (Handler CB) :=
  (r.find? (fun p => p.1 == k)).map (fun p => p.2)

/-- Property assignment obj[k] = h: replace the existing binding in place,
else append in insertion order. -/
def rInsert {CB : Type} : Registry CB → String → Handler CB → Registry CB
  | [], k, h => [(k, h)]
  | (k0, h0) :: rest, k, h =>
    if k0 == k then (k, h) :: rest else (k0, h0) :: rInsert rest k h

/-- delete obj[k] (lines 355 and 368). -/
def rErase {CB : Type} (r : Registry CB) (k : String) : Registry CB :=
  r.filter (fun p => p.1 != k)

theorem rLookup_rInsert_self {CB : Type} (r : Registry CB) (k : String) (h : Handler CB) :
    rLookup (rInsert r k h) k = some h := by
  induction r with
  | nil => simp [rInsert, rLookup, List.find?]
  | cons p rest ih =>
    by_cases hk : p.1 == k
    · simp [rInsert, hk, rLookup, List.find?]
    · simpa [rInsert, hk, rLookup, List.find?] using ih

theorem rLookup_rInsert_ne {CB : Type} (r : Registry CB) (k k' : String) (h : Handler CB)
    (hne : k' ≠ k) : rLookup (rInsert r k' h) k = rLookup r k := by
  have hkk : (k' == k) = false := by simp [hne]
  induction r with
  | nil => simp [rInsert, rLookup, List.find?, hkk]
  | cons p rest ih =>
    by_cases hk : p.1 == k'
    · have hpk : (p.1 == k) = false := by
        have : p.1 = k' := by simpa using hk
        simp [this, hne]
      simp [rInsert, hk, rLookup, List.find?, hpk, hne]
    · by_cases hpk : p.1 == k
      · simp [rInsert, hk, rLookup, List.find?, hpk]
      · simpa [rInsert, hk, rLookup, List.find?, hpk] using ih

theorem rLookup_rErase_self {CB : Type} (r : Registry CB) (k : String) :
    rLookup (rErase r k) k = none := by
  induction r with
  | nil => simp [rErase, rLookup]
  | cons p rest ih =>
    by_cases hk : p.1 == k
    · have hb : (p.1 != k) = false := by simp_all
      simp only [rErase, List.filter, hb] at ih ⊢
      exact ih
    · have hb : (p.1 != k) = true := by simp_all
      simp only [rErase, List.filter, hb] at ih ⊢
      simpa [rLookup, List.find?, hk] using ih

/-- Observable continuation activity recorded by the HTTP-path handlers. -/
inductive Effect (CB : Type) : Type where
  | invoke : CB → JVal → Effect CB
  | log : JVal → Effect CB
  | allDone : CB → List JVal → Effect CB

/-- What one run of the websocket message router did. -/
inductive WsAction (CB : Type) : Type where
  | invokedSuccess : CB → JVal → WsAction CB
  | invokedError : CB → JVal → WsAction CB
  | fallbackCalled : WsAction CB
  | dropped : WsAction CB

/-- The persistent-transport handle consumed by _wsCall (spec section 6):
a liveness state, a single assignable onopen handler slot, and the
messages sent so far.  The onopen closure built at lines 313-316 captures
only the serialized request, so the slot stores that request (the
serializer is bijective on our payloads and is elided). -/
structure Socket : Type where
  readyState : Nat
  onopen : Option JVal
  sent : List JVal

/-- Lines 305-327, _wsCall(socket, request, success_cb, error_cb):
if the socket is still connecting, (re)assign its single onopen handler
to send this request later, else send now; then register the callbacks
under the request id when the request has an id and success_cb is
defined. -/
def wsCall {CB : Type} (cbs : Registry CB) (socket : Socket) (request : JVal)
    (success_cb error_cb : Option CB) : Registry CB × Socket :=
  let socket :=
    if socket.readyState < 1 then { socket with onopen := some request }
    else { socket with sent := socket.sent ++ [request] }
  let cbs :=
    if hasField request "id" && success_cb.isSome then
      rInsert cbs (respKey request) { success_cb := success_cb, error_cb := error_cb }
    else cbs
  (cbs, socket)

/-- The transport becomes open: the installed onopen handler (if any)
runs, sending the one request it captured. -/
def socketOpenFires (s : Socket) : Socket :=
  match s.onopen with
  | some req => { s with readyState := 1, sent := s.sent ++ [req] }
  | none => { s with readyState := 1 }

/-- The tail of _wsOnMessage (lines 381-384): forward to the external
onmessage handler when one is configured, else drop silently. -/
def wsFallthrough {CB : Type} (hasOnmessage : Bool) : WsAction CB :=
  if hasOnmessage then .fallbackCalled else .dropped

/-- Lines 336-385, _wsOnMessage(event).  The payload arrives already
parsed: Except.error stands for the $.parseJSON exception, which the
try/catch at lines 338-379 swallows before falling through.  A response
whose stored continuation slot is undefined would raise a TypeError when
called; the same try/catch swallows it (after the delete has happened)
and control also reaches the fallthrough, so no raise ever escapes the
router.  Non-object payloads fail the typeof/'in'/'===' tests (null makes
the in operator throw, which is again swallowed) and reach the
fallthrough as well. -/
def wsOnMessage {CB : Type} (cbs : Registry CB) (parsed : Except Unit JVal)
    (hasOnmessage : Bool) : Registry CB × WsAction CB :=
  match parsed with
  | .error _ => (cbs, wsFallthrough hasOnmessage)
  | .ok response =>
    if hasField response "jsonrpc" && isStr20 (getFieldD response "jsonrpc") then
      match rLookup cbs (respKey response) with
      | some h =>
        if hasField response "result" then
          match h.success_cb with
          | some c => (rErase cbs (respKey response), .invokedSuccess c (getFieldD response "result"))
          | none => (rErase cbs (respKey response), wsFallthrough hasOnmessage)
        else if hasField response "error" then
          match h.error_cb with
          | some c => (rErase cbs (respKey response), .invokedError c (getFieldD response "error"))
          | none => (rErase cbs (respKey response), wsFallthrough hasOnmessage)
        else (cbs, wsFallthrough hasOnmessage)
      | none => (cbs, wsFallthrough hasOnmessage)
    else (cbs, wsFallthrough hasOnmessage)

/-- One element of the _batch array (lines 87-91 and 156): notify entries
carry no callbacks, matching the object literal without those keys. -/
structure BatchEntry (CB : Type) : Type where
  request : JVal
  success_cb : Option CB
  error_cb : Option CB

/-- Per-instance state.  _current_id and _batch are declared on the
prototype (lines 55 and 58) with values 1 and null, but every write the
code performs on them is a property assignment on this
(this._current_id++ at line 75, this._batch = ... at lines 184 and 209),
which creates or updates an own property shadowing the prototype; so both
are effectively per instance.  own_current_id = none models the not yet
shadowed prototype default 1.  The shared _ws_callbacks object is NOT
here: the code only ever mutates it element-wise, so it stays the single
prototype object (see World below). -/
structure Inst (CB : Type) : Type where
  ajaxUrl : Option String
  own_current_id : Option Nat
  batch : Option (List (BatchEntry CB))

/-- The value this._current_id reads as: the own property if the instance
has written one, else the prototype's 1 (line 55). -/
def currentId {CB : Type} (inst : Inst CB) : Nat := inst.own_current_id.getD 1

/-- A freshly constructed client (lines 35-46): no own counter, no batch. -/
def freshInst (CB : Type) (ajaxUrl : Option String) : Inst CB :=
  { ajaxUrl := ajaxUrl, own_current_id := none, batch := none }

/-- Which dispatch path a call or notify took. -/
inductive CallAction (CB : Type) : Type where
  | wsDispatched : CallAction CB
  | batched : CallAction CB
  | ajaxDispatched : JVal → CallAction CB

/-- Everything a run of call or notify produced: the updated instance,
the updated shared registry and socket, the request object that was
built, and either the taken dispatch path or the synchronously thrown
string. -/
structure DispatchRes (CB : Type) : Type where
  inst : Inst CB
  registry : Registry CB
  socket : Option Socket
  request : JVal
  outcome : Except String (CallAction CB)

/-- Lines 69-125, call(method, params, success_cb, error_cb).  The socket
argument is what options.getSocket returned (null or a handle).  The id
is assigned and the counter incremented before any transport choice, so
even a throwing call consumes an id.  Branch order as in the source:
socket, then active batch, then the no-endpoint throw, then ajax
dispatch. -/
def call {CB : Type} (inst : Inst CB) (registry : Registry CB) (socket : Option Socket)
    (method : String) (params : JVal) (success_cb error_cb : Option CB) : DispatchRes CB :=
  let request : JVal := .obj [("jsonrpc", .str "2.0"), ("method", .str method),
    ("params", params), ("id", .num (currentId inst))]
  let inst := { inst with own_current_id := some (currentId inst + 1) }
  match socket with
  | some s =>
    let rs := wsCall registry s request success_cb error_cb
    { inst := inst, registry := rs.1, socket := some rs.2, request := request,
      outcome := .ok .wsDispatched }
  | none =>
    match inst.batch with
    | some b =>
      let entry : BatchEntry CB :=
        { request := request, success_cb := success_cb, error_cb := error_cb }
      { inst := { inst with batch := some (b ++ [entry]) },
        registry := registry, socket := none, request := request, outcome := .ok .batched }
    | none =>
      match inst.ajaxUrl with
      | none =>
        { inst := inst, registry := registry, socket := none, request := request,
          outcome := .error "$.JsonRpcClient.call used with no websocket and no http endpoint." }
      | some _ =>
        { inst := inst, registry := registry, socket := none, request := request,
          outcome := .ok (.ajaxDispatched request) }

/-- Lines 139-172, notify(method, params): id-less request, counter
untouched, _wsCall receives no callbacks, batch entries carry none. -/
def notify {CB : Type} (inst : Inst CB) (registry : Registry CB) (socket : Option Socket)
    (method : String) (params : JVal) : DispatchRes CB :=
  let request : JVal := .obj [("jsonrpc", .str "2.0"), ("method", .str method),
    ("params", params)]
  match socket with
  | some s =>
    let rs := wsCall registry s request none none
    { inst := inst, registry := rs.1, socket := some rs.2, request := request,
      outcome := .ok .wsDispatched }
  | none =>
    match inst.batch with
    | some b =>
      let entry : BatchEntry CB :=
        { request := request, success_cb := none, error_cb := none }
      { inst := { inst with batch := some (b ++ [entry]) },
        registry := registry, socket := none, request := request, outcome := .ok .batched }
    | none =>
      match inst.ajaxUrl with
      | none =>
        { inst := inst, registry := registry, socket := none, request := request,
          outcome := .error "$.JsonRpcClient.notify used with no websocket and no http endpoint." }
      | some _ =>
        { inst := inst, registry := registry, socket := none, request := request,
          outcome := .ok (.ajaxDispatched request) }

/-- Lines 182-186, startBatch(): create an empty batch only when none is
active. -/
def startBatch {CB : Type} (inst : Inst CB) : Inst CB :=
  match inst.batch with
  | none => { inst with batch := some [] }
  | some _ => inst

/-- Lines 201-245, endBatch: null out the batch first, return without
I/O when there was none or it was empty, else produce the array of
requests and the handler map keyed by request id (only entries whose
request has an id contribute, lines 222-228).  The ajax exchange itself
is the external collaborator; its success continuation is batchCb
below. -/
def endBatch {CB : Type} (inst : Inst CB) :
    Inst CB × Option (List JVal × Registry CB) :=
  match inst.batch with
  | none => (inst, none)
  | some batch =>
    let inst := { inst with batch := none }
    if batch.isEmpty then (inst, none)
    else
      let batch_request := batch.map (fun c => c.request)
      let handlers := batch.foldl (fun hs c =>
        if hasField c.request "id" then
          rInsert hs (respKey c.request) { success_cb := c.success_cb, error_cb := c.error_cb }
        else hs) []
      (inst, some (batch_request, handlers))

/-- Lines 107-110, the success handler of the single-call ajax exchange:
if ('error' in data) error_cb(data.error); success_cb(data.result);
There is no else between the two statements, so when an error member is
present BOTH continuations run, in that order (success_cb with the absent
result, i.e. undefined).  Returns the invocation effects in order and
whether the handler completed without a TypeError (calling an undefined
continuation). -/
def callAjaxSuccess {CB : Type} (data : JVal) (success_cb error_cb : Option CB) :
    List (Effect CB) × Bool :=
  if hasField data "error" then
    match error_cb with
    | none => ([], false)
    | some e =>
      match success_cb with
      | none => ([Effect.invoke e (getFieldD data "error")], false)
      | some s =>
        ([Effect.invoke e (getFieldD data "error"),
          Effect.invoke s (getFieldD data "result")], true)
  else
    match success_cb with
    | none => ([], false)
    | some s => ([Effect.invoke s (getFieldD data "result")], true)

/-- One iteration of the loop at lines 254-270 of _batchCb, transcribed
branch for branch.  none models a TypeError escaping the iteration: the
member access handlers[response.id].error_cb / .success_cb on a missing
entry (undefined), or invoking an undefined continuation.  Note the
conditions exactly as written in the source: an error whose id is null OR
PRESENT in the handler map is only logged, and the error_cb line is only
reached when the id has no entry; a result whose id is present is logged
when a console exists, and the success_cb line is reached otherwise. -/
def batchCbStep {CB : Type} (handlers : Registry CB) (hasConsole : Bool)
    (response : JVal) : Option (List (Effect CB)) :=
  if hasField response "error" then
    if isNull (getFieldD response "id") || (rLookup handlers (respKey response)).isSome then
      some (if hasConsole then [Effect.log response] else [])
    else
      match rLookup handlers (respKey response) with
      | some h =>
        match h.error_cb with
        | some c => some [Effect.invoke c (getFieldD response "error")]
        | none => none
      | none => none
  else
    if (rLookup handlers (respKey response)).isSome && hasConsole then
      some [Effect.log response]
    else
      match rLookup handlers (respKey response) with
      | some h =>
        match h.success_cb with
        | some c => some [Effect.invoke c (getFieldD response "result")]
        | none => none
      | none => none

/-- The for-in loop of _batchCb over the response array, in element
order; a TypeError aborts the remaining iterations (the exception
propagates out of the function).  Returns the effects of the completed
iterations and whether the loop ran to completion. -/
def batchCbLoop {CB : Type} (handlers : Registry CB) (hasConsole : Bool) :
    List JVal → List (Effect CB) × Bool
  | [] => ([], true)
  | r :: rest =>
    match batchCbStep handlers hasConsole r with
    | none => ([], false)
    | some es =>
      let tail := batchCbLoop handlers hasConsole rest
      (es ++ tail.1, tail.2)

/-- Lines 253-273, _batchCb(result, handlers, all_done_cb): process every
element, then call all_done_cb with the raw result array when it is a
function — unless a TypeError already aborted the loop, in which case
all_done_cb is never reached. -/
def batchCb {CB : Type} (result : List JVal) (handlers : Registry CB)
    (all_done_cb : Option CB) (hasConsole : Bool) : List (Effect CB) × Bool :=
  let run := batchCbLoop handlers hasConsole result
  if run.2 then
    match all_done_cb with
    | some c => (run.1 ++ [Effect.allDone c result], true)
    | none => (run.1, true)
  else run

/-- The prototype-level view needed to talk about several instances of
$.JsonRpcClient at once.  _ws_callbacks is initialised ONCE as an object
literal on the prototype (line 52); the code never assigns
this._ws_callbacks itself, it only assigns and deletes elements of it
(lines 325, 355, 368), and element assignment through the prototype chain
mutates that one shared object in place.  So the world holds a single
registry, while each instance has its own counter and batch (those are
written with whole-property assignments, which shadow). -/
structure World (CB : Type) : Type where
  proto_ws_callbacks : Registry CB
  insts : List (Inst CB)

/-- _wsCall reached through instance number i: whatever the instance, the
registry mutated is the one prototype object. -/
def worldWsCall {CB : Type} (w : World CB) (_i : Nat) (socket : Socket) (request : JVal)
    (success_cb error_cb : Option CB) : World CB × Socket :=
  let rs := wsCall w.proto_ws_callbacks socket request success_cb error_cb
  ({ w with proto_ws_callbacks := rs.1 }, rs.2)

/-- _wsOnMessage reached through instance number i: reads and deletes on
the same shared prototype object. -/
def worldWsOnMessage {CB : Type} (w : World CB) (_i : Nat) (parsed : Except Unit JVal)
    (hasOnmessage : Bool) : World CB × WsAction CB :=
  let ra := wsOnMessage w.proto_ws_callbacks parsed hasOnmessage
  ({ w with proto_ws_callbacks := ra.1 }, ra.2)

/-- Argument bundle for one step of a sequence of call invocations. -/
structure CallArgs (CB : Type) : Type where
  registry : Registry CB
  socket : Option Socket
  method : String
  params : JVal
  success_cb : Option CB
  error_cb : Option CB

/-- A sequence of call invocations on one instance, collecting the
request object each one built. -/
def runCalls {CB : Type} (inst : Inst CB) : List (CallArgs CB) → List JVal
  | [] => []
  | a :: rest =>
    let r := call inst a.registry a.socket a.method a.params a.success_cb a.error_cb
    r.request :: runCalls r.inst rest

/-- The JSON-RPC 2.0 request envelope that call builds (lines 71-76). -/
def reqWithId (m : String) (p : JVal) (n : Int) : JVal :=
  .obj [("jsonrpc", .str "2.0"), ("method", .str m), ("params", p), ("id", .num n)]

/-- A server result response carrying a given id. -/
def resultResp (n : Int) (v : JVal) : JVal :=
  .obj [("jsonrpc", .str "2.0"), ("id", .num n), ("result", v)]

/-- A server error response carrying a given id. -/
def errorResp (n : Int) (e : JVal) : JVal :=
  .obj [("jsonrpc", .str "2.0"), ("id", .num n), ("error", e)]

/-- Batch scenario from the spec: startBatch on a fresh client, then two
calls "a" and "b" (callback labels 10/11 and 20/21), then endBatch. -/
def c1Start : Inst Nat := startBatch (freshInst Nat (some "/backend/jsonrpc"))

def c1AfterA : DispatchRes Nat := call c1Start [] none "a" (.obj []) (some 10) (some 11)

def c1AfterB : DispatchRes Nat := call c1AfterA.inst [] none "b" (.obj []) (some 20) (some 21)

/-- The handler map endBatch derives from that batch. -/
def c1Handlers : Registry Nat := ((endBatch c1AfterB.inst).2.getD ([], [])).2

def c1RespA : JVal := resultResp 1 (.str "A")

def c1RespB : JVal := resultResp 2 (.str "B")

def c1RespErr : JVal := errorResp 1 (.obj [("code", .num (-32600))])

/-- Claim C1 (code_bug evaluation).  The claim states that a batch
response element carrying a result whose id is in the handler map invokes
that entry's success continuation, and an error element likewise invokes
the error continuation.  The code does the opposite: the conditions of
_batchCb (lines 259 and 267) are inverted, so with a console present a
matched result element is only logged — callbacks 10 and 20, registered
for ids 1 and 2, are never invoked — and a matched error element is only
logged as well, on the branch whose comment says it is for errors on
notifies.  This theorem evaluates the code on the spec's own example
batch (ids 1 and 2, response array in reversed order) and on a matched
error element. -/
theorem batchCb_logs_matched_results :
    c1Handlers = [("1", { success_cb := some 10, error_cb := some 11 }),
                  ("2", { success_cb := some 20, error_cb := some 21 })]
    ∧ batchCb [c1RespB, c1RespA] c1Handlers (some 99) true
        = ([Effect.log c1RespB, Effect.log c1RespA, Effect.allDone 99 [c1RespB, c1RespA]], true)
    ∧ batchCb [c1RespErr] c1Handlers (some 99) true
        = ([Effect.log c1RespErr, Effect.allDone 99 [c1RespErr]], true)
    ∧ batchCb [c1RespErr] c1Handlers (some 99) false
        = ([Effect.allDone 99 [c1RespErr]], true) :=
  ⟨rfl, rfl, rfl, rfl⟩

def c2Data : JVal := errorResp 1 (.obj [("code", .num (-32600))])

/-- Claim C2 (code_bug evaluation).  The claim states that a single HTTP
response body carrying an error member invokes only the error
continuation, at most one continuation per response.  The success handler
at lines 107-110 has no else between error_cb(data.error) and
success_cb(data.result), so on an error body BOTH continuations run: the
error continuation with the server's error object (label 1 below), then
the success continuation with the absent result, i.e. undefined (label
0). -/
theorem callAjaxSuccess_double_invoke :
    callAjaxSuccess c2Data (some 0) (some 1)
      = ([Effect.invoke 1 (.obj [("code", .num (-32600))]),
          Effect.invoke 0 JVal.undefined], true) := rfl

def c3Resp : JVal := resultResp 5 (.str "X")

/-- Claim C3 (code_bug evaluation).  The claim states that the overall
completion callback fires with the full raw result array even when some
ids are missing from the handler map.  In the code, a result element
whose id has no handler entry reaches
handlers[response.id].success_cb(response.result) (line 268) on the
inverted branch; handlers[response.id] is undefined, so a TypeError is
raised, the loop aborts and all_done_cb (label 0) is never invoked: the
run below ends with no effects and the aborted flag. -/
theorem batchCb_unmatched_id_aborts :
    batchCb [c3Resp] ([] : Registry Nat) (some 0) true = ([], false) := rfl

/-- Claim C8: startBatch is idempotent — a second startBatch right after
a first one leaves the instance exactly as the first left it, neither
clearing nor replacing the accumulating batch (lines 182-186 only create
a batch when none is active). -/
theorem startBatch_idempotent {CB : Type} (inst : Inst CB) :
    startBatch (startBatch inst) = startBatch inst := by
  cases hb : inst.batch <;> simp [startBatch, hb]

/-- Claim C4: at-most-once resolution on the persistent transport.  For
any inbound JSON-RPC 2.0 response whose id key has an entry in the
pending-call registry, the router returns the registry with that entry
deleted (the delete at line 355 or 368 happens before the continuation
runs) together with exactly that entry's continuation invocation; and
running the router again with the same message on the resulting registry
finds no entry, invokes no continuation, and leaves the registry
unchanged.  Both the result and the error shape are covered. -/
theorem wsOnMessage_at_most_once {CB : Type} (cbs : Registry CB) (r : JVal) (b : Bool)
    (h : Handler CB) (sc ec : CB)
    (h20 : (hasField r "jsonrpc" && isStr20 (getFieldD r "jsonrpc")) = true)
    (hent : rLookup cbs (respKey r) = some h) :
    (hasField r "result" = true → h.success_cb = some sc →
      wsOnMessage cbs (.ok r) b
          = (rErase cbs (respKey r), .invokedSuccess sc (getFieldD r "result"))
        ∧ wsOnMessage (rErase cbs (respKey r)) (.ok r) b
          = (rErase cbs (respKey r), wsFallthrough b))
    ∧ (hasField r "result" = false → hasField r "error" = true → h.error_cb = some ec →
      wsOnMessage cbs (.ok r) b
          = (rErase cbs (respKey r), .invokedError ec (getFieldD r "error"))
        ∧ wsOnMessage (rErase cbs (respKey r)) (.ok r) b
          = (rErase cbs (respKey r), wsFallthrough b)) := by
  constructor
  · intro hres hsc
    constructor
    · simp [wsOnMessage, h20, hent, hres, hsc]
    · simp [wsOnMessage, h20, rLookup_rErase_self]
  · intro hres herr hec
    constructor
    · simp [wsOnMessage, h20, hent, hres, herr, hec]
    · simp [wsOnMessage, h20, rLookup_rErase_self]

def c4Resp : JVal := resultResp 7 (.str "ok")

/-- Claim C4 witness: a registry holding continuations 5/6 under id 7, a
result response for id 7.  The first run deletes the entry and invokes
continuation 5 with the result; the second run of the identical message
drops it. -/
theorem wsOnMessage_at_most_once_witness :
    wsOnMessage [("7", ({ success_cb := some 5, error_cb := some 6 } : Handler Nat))]
        (.ok c4Resp) false
      = ([], .invokedSuccess 5 (.str "ok"))
    ∧ wsOnMessage ([] : Registry Nat) (.ok c4Resp) false = ([], .dropped) := by
  have h := wsOnMessage_at_most_once
    [("7", ({ success_cb := some 5, error_cb := some 6 } : Handler Nat))]
    c4Resp false { success_cb := some 5, error_cb := some 6 } 5 6 rfl rfl
  exact ⟨(h.1 rfl rfl).1, (h.1 rfl rfl).2⟩

/-- Claim C6, amended: a parsed JSON-RPC 2.0 response whose id key has no
entry in the pending-call registry invokes no success or error
continuation and does not raise, and the registry is untouched; but
rather than being logged (the router contains no logging), the message
falls through to the external onmessage handler when one is configured
and is silently dropped otherwise (lines 381-384). -/
theorem wsOnMessage_unmatched_silent {CB : Type} (cbs : Registry CB) (r : JVal) (b : Bool)
    (h20 : (hasField r "jsonrpc" && isStr20 (getFieldD r "jsonrpc")) = true)
    (hnone : rLookup cbs (respKey r) = none) :
    wsOnMessage cbs (.ok r) b = (cbs, wsFallthrough b) := by
  simp [wsOnMessage, h20, hnone]

def c6Resp : JVal := resultResp 99 (.str "X")

/-- Claim C6 witness: empty registry, response for unknown id 99, no
external handler configured — the router returns the same (empty)
registry and the dropped action. -/
theorem wsOnMessage_unmatched_silent_witness :
    wsOnMessage ([] : Registry Nat) (.ok c6Resp) false = ([], .dropped) :=
  wsOnMessage_unmatched_silent ([] : Registry Nat) c6Resp false rfl rfl

/-- Claim C6 counterexample to the claim as stated: with an external
onmessage handler configured, a JSON-RPC 2.0 response for an unknown id
is not merely logged and dropped — the router hands the whole message to
the external fallback handler (lines 381-384), an observable invocation
the claim excludes. -/
theorem wsOnMessage_unmatched_forwards :
    (wsOnMessage ([] : Registry Nat) (.ok c6Resp) true).2 = WsAction.fallbackCalled
    ∧ (WsAction.fallbackCalled : WsAction Nat) ≠ WsAction.dropped :=
  ⟨rfl, fun hq => nomatch hq⟩

theorem call_request_id {CB : Type} (inst : Inst CB) (reg : Registry CB)
    (sock : Option Socket) (m : String) (p : JVal) (s e : Option CB) :
    (call inst reg sock m p s e).request = reqWithId m p (currentId inst)
    ∧ currentId (call inst reg sock m p s e).inst = currentId inst + 1 := by
  cases sock <;> cases hb : inst.batch <;> cases hu : inst.ajaxUrl <;>
    simp [call, currentId, reqWithId, hb, hu]

theorem runCalls_ids {CB : Type} (args : List (CallArgs CB)) (inst : Inst CB) :
    (runCalls inst args).map (fun r => getFieldD r "id")
      = (List.range args.length).map (fun k => JVal.num ((currentId inst + k : Nat) : Int)) := by
  induction args generalizing inst with
  | nil => simp [runCalls]
  | cons a rest ih =>
    have hr := call_request_id inst a.registry a.socket a.method a.params a.success_cb a.error_cb
    have hid : getFieldD (reqWithId a.method a.params (currentId inst)) "id"
        = JVal.num ((currentId inst : Nat) : Int) := rfl
    rw [List.length_cons, List.range_succ_eq_map]
    simp only [runCalls, List.map_cons, hr.1, hid, ih, List.map_map]
    congr 1
    apply List.map_congr_left
    intro k _
    simp only [Function.comp_apply]
    rw [hr.2]
    have hnat : currentId inst + 1 + k = currentId inst + Nat.succ k := by omega
    rw [hnat]

/-- Claim C5: for every sequence of call invocations on one fresh client
instance (whatever transport, params or callbacks each one uses), the ids
assigned to the built requests are exactly 1, 2, 3, ... — strictly
increasing starting at 1; and notify builds a request without an id
member and leaves the id counter untouched.  The counter lives at
_current_id (line 55, prototype default 1) and is advanced only by
this._current_id++ at line 75. -/
theorem call_ids_strictly_increasing {CB : Type} :
    (∀ (url : Option String) (args : List (CallArgs CB)),
      (runCalls (freshInst CB url) args).map (fun r => getFieldD r "id")
        = (List.range args.length).map (fun k => JVal.num ((k + 1 : Nat) : Int)))
    ∧ (∀ (inst : Inst CB) (reg : Registry CB) (sock : Option Socket) (m : String) (p : JVal),
      (notify inst reg sock m p).inst.own_current_id = inst.own_current_id
      ∧ hasField (notify inst reg sock m p).request "id" = false) := by
  constructor
  · intro url args
    have h := runCalls_ids args (freshInst CB url)
    have hfresh : currentId (freshInst CB url) = 1 := rfl
    rw [h, hfresh]
    apply List.map_congr_left
    intro k _
    rw [Nat.add_comm]
  · intro inst reg sock m p
    cases sock <;> cases hb : inst.batch <;> cases hu : inst.ajaxUrl <;>
      simp [notify, hasField, hb, hu]

/-- Claim C7 counterexample to the claim as stated: a client with an open
(empty) batch, no socket and no ajaxUrl does NOT raise on call — the
batch check at line 85 precedes the no-endpoint throw at lines 96-98, so
the request is enqueued and call returns normally. -/
theorem call_batch_open_no_raise :
    (call (startBatch (freshInst Nat none)) [] none "m" (.obj []) (some 0) (some 1)).outcome
      = Except.ok CallAction.batched := rfl

/-- Claim C7, amended: with no persistent transport obtainable and no
ajaxUrl configured, call and notify raise synchronously (not through a
continuation) only when no batch is accumulating; when a batch is open
the request is instead enqueued in the batch and nothing is raised (the
misconfiguration surfaces later, at endBatch). -/
theorem call_notify_raise_only_when_idle {CB : Type} (inst : Inst CB) (reg : Registry CB)
    (m : String) (p : JVal) (s e : Option CB)
    (hurl : inst.ajaxUrl = none) :
    (inst.batch = none →
      (call inst reg none m p s e).outcome
          = Except.error "$.JsonRpcClient.call used with no websocket and no http endpoint."
        ∧ (notify inst reg none m p).outcome
          = Except.error "$.JsonRpcClient.notify used with no websocket and no http endpoint.")
    ∧ (∀ bs, inst.batch = some bs →
      (call inst reg none m p s e).outcome = Except.ok CallAction.batched
        ∧ (notify inst reg none m p).outcome = Except.ok CallAction.batched) := by
  constructor
  · intro hb
    constructor <;> simp [call, notify, hb, hurl]
  · intro bs hb
    constructor <;> simp [call, notify, hb]

/-- Claim C7 witness: on a fresh instance with no ajaxUrl the call
raises the source's exact throw string, and after startBatch the notify
on the same misconfigured instance is enqueued instead. -/
theorem call_notify_raise_only_when_idle_witness :
    (call (freshInst Nat none) [] none "m" (.obj []) (some 0) (some 1)).outcome
        = Except.error "$.JsonRpcClient.call used with no websocket and no http endpoint."
    ∧ (notify (startBatch (freshInst Nat none)) [] none "m" (.obj [])).outcome
        = Except.ok CallAction.batched := by
  have h1 := call_notify_raise_only_when_idle (freshInst Nat none) ([] : Registry Nat)
    "m" (.obj []) (some 0) (some 1) rfl
  have h2 := call_notify_raise_only_when_idle (startBatch (freshInst Nat none))
    ([] : Registry Nat) "m" (.obj []) (some 0) (some 1) rfl
  exact ⟨(h1.1 rfl).1, ((h2.2 [] rfl).2)⟩

theorem wsOnMessage_resolves_inserted {CB : Type} (reg : Registry CB) (n : Int) (v : JVal)
    (c : CB) (e : Option CB) (b : Bool) :
    wsOnMessage (rInsert reg (toString n) { success_cb := some c, error_cb := e })
        (.ok (resultResp n v)) b
      = (rErase (rInsert reg (toString n) { success_cb := some c, error_cb := e }) (toString n),
         .invokedSuccess c v) := by
  have hl : rLookup (rInsert reg (toString n) { success_cb := some c, error_cb := e })
      (toString n) = some { success_cb := some c, error_cb := e } :=
    rLookup_rInsert_self reg (toString n) _
  have h20 : (hasField (resultResp n v) "jsonrpc"
      && isStr20 (getFieldD (resultResp n v) "jsonrpc")) = true := rfl
  have hres : hasField (resultResp n v) "result" = true := rfl
  have hval : getFieldD (resultResp n v) "result" = v := rfl
  have hk : respKey (resultResp n v) = toString n := rfl
  simp [wsOnMessage, h20, hl, hres, hval, hk]

/-- Claim C9: the pending-call map _ws_callbacks is a single object on
the constructor's prototype (line 52), mutated only in place (element
assignment at line 325, deletes at lines 355 and 368), so it is shared by
every client instance.  (1) Registering a callback through instance i or
through instance j mutates the identical prototype object; (2) a callback
registered through instance i is resolved — invoked and its entry
deleted — by a response arriving through any other instance j; (3) two
instances issuing the same id overwrite each other's entry: after i then
j register under one id, the map holds j's handler. -/
theorem ws_callbacks_shared_across_instances {CB : Type} (w : World CB) (i j : Nat)
    (sock : Socket) (m : String) (p v : JVal) (n : Int) (c c2 : CB) (e e2 : Option CB)
    (b : Bool) :
    ((worldWsCall w i sock (reqWithId m p n) (some c) e).1.proto_ws_callbacks
        = (worldWsCall w j sock (reqWithId m p n) (some c) e).1.proto_ws_callbacks)
    ∧ ((worldWsOnMessage (worldWsCall w i sock (reqWithId m p n) (some c) e).1 j
          (.ok (resultResp n v)) b).2 = WsAction.invokedSuccess c v
      ∧ rLookup (worldWsOnMessage (worldWsCall w i sock (reqWithId m p n) (some c) e).1 j
          (.ok (resultResp n v)) b).1.proto_ws_callbacks (toString n) = none)
    ∧ rLookup (worldWsCall (worldWsCall w i sock (reqWithId m p n) (some c) e).1 j sock
          (reqWithId m p n) (some c2) e2).1.proto_ws_callbacks (toString n)
        = some { success_cb := some c2, error_cb := e2 } := by
  have hidT : hasField (reqWithId m p n) "id" = true := rfl
  have hk : respKey (reqWithId m p n) = toString n := rfl
  have hreg : (worldWsCall w i sock (reqWithId m p n) (some c) e).1.proto_ws_callbacks
      = rInsert w.proto_ws_callbacks (toString n) { success_cb := some c, error_cb := e } := by
    simp [worldWsCall, wsCall, hidT, hk]
  refine ⟨rfl, ⟨?_, ?_⟩, ?_⟩
  · simp only [worldWsOnMessage, hreg, wsOnMessage_resolves_inserted]
  · simp only [worldWsOnMessage, hreg, wsOnMessage_resolves_inserted, rLookup_rErase_self]
  · simp [worldWsCall, wsCall, hidT, hk, hreg, rLookup_rInsert_self]

/-- Claim C10: when two calls are dispatched through _wsCall while the
socket is still connecting (readyState 0 < 1), the second assignment to
socket.onopen (line 313) overwrites the first, so when the socket opens
only the most recently dispatched request is sent; the first request is
never sent, while its registry entry, installed at line 325, remains
pending.  Also records that the first dispatch had installed its own
handler before being overwritten. -/
theorem wsCall_connecting_overwrites_onopen {CB : Type} (reg : Registry CB) (s : Socket)
    (m1 m2 : String) (p1 p2 : JVal) (n1 n2 : Int) (a1 a2 : CB) (e1 e2 : Option CB)
    (hconn : s.readyState = 0)
    (hne : toString n1 ≠ toString n2) :
    ((wsCall reg s (reqWithId m1 p1 n1) (some a1) e1).2.onopen = some (reqWithId m1 p1 n1))
    ∧ ((wsCall (wsCall reg s (reqWithId m1 p1 n1) (some a1) e1).1
          (wsCall reg s (reqWithId m1 p1 n1) (some a1) e1).2
          (reqWithId m2 p2 n2) (some a2) e2).2.onopen = some (reqWithId m2 p2 n2))
    ∧ ((socketOpenFires (wsCall (wsCall reg s (reqWithId m1 p1 n1) (some a1) e1).1
          (wsCall reg s (reqWithId m1 p1 n1) (some a1) e1).2
          (reqWithId m2 p2 n2) (some a2) e2).2).sent = s.sent ++ [reqWithId m2 p2 n2])
    ∧ (rLookup (wsCall (wsCall reg s (reqWithId m1 p1 n1) (some a1) e1).1
          (wsCall reg s (reqWithId m1 p1 n1) (some a1) e1).2
          (reqWithId m2 p2 n2) (some a2) e2).1 (toString n1)
        = some { success_cb := some a1, error_cb := e1 }) := by
  have hid1 : (hasField (reqWithId m1 p1 n1) "id" && (some a1).isSome) = true := rfl
  have hid2 : (hasField (reqWithId m2 p2 n2) "id" && (some a2).isSome) = true := rfl
  have hk1 : respKey (reqWithId m1 p1 n1) = toString n1 := rfl
  have hk2 : respKey (reqWithId m2 p2 n2) = toString n2 := rfl
  refine ⟨?_, ?_, ?_, ?_⟩
  · simp [wsCall, hconn]
  · simp [wsCall, hconn]
  · simp [wsCall, hconn, socketOpenFires]
  · simp only [wsCall, hid1, hid2, hk1, hk2, if_true]
    rw [rLookup_rInsert_ne _ _ _ _ (fun hq => hne hq.symm), rLookup_rInsert_self]

def c10Sock : Socket := { readyState := 0, onopen := none, sent := [] }

/-- Claim C10 witness: two concrete requests (ids 1 and 2, callbacks
1/2 and 3/4) dispatched on a connecting socket with an empty registry:
the open event sends only the second request, and the entry for id 1 is
still registered. -/
theorem wsCall_connecting_overwrites_onopen_witness :
    ((wsCall ([] : Registry Nat) c10Sock (reqWithId "a" (.obj []) 1) (some 1) (some 2)).2.onopen
        = some (reqWithId "a" (.obj []) 1))
    ∧ ((wsCall (wsCall ([] : Registry Nat) c10Sock (reqWithId "a" (.obj []) 1) (some 1) (some 2)).1
          (wsCall ([] : Registry Nat) c10Sock (reqWithId "a" (.obj []) 1) (some 1) (some 2)).2
          (reqWithId "b" (.obj []) 2) (some 3) (some 4)).2.onopen
        = some (reqWithId "b" (.obj []) 2))
    ∧ ((socketOpenFires (wsCall
          (wsCall ([] : Registry Nat) c10Sock (reqWithId "a" (.obj []) 1) (some 1) (some 2)).1
          (wsCall ([] : Registry Nat) c10Sock (reqWithId "a" (.obj []) 1) (some 1) (some 2)).2
          (reqWithId "b" (.obj []) 2) (some 3) (some 4)).2).sent
        = [] ++ [reqWithId "b" (.obj []) 2])
    ∧ (rLookup (wsCall
          (wsCall ([] : Registry Nat) c10Sock (reqWithId "a" (.obj []) 1) (some 1) (some 2)).1
          (wsCall ([] : Registry Nat) c10Sock (reqWithId "a" (.obj []) 1) (some 1) (some 2)).2
          (reqWithId "b" (.obj []) 2) (some 3) (some 4)).1 (toString (1 : Int))
        = some { success_cb := some 1, error_cb := some 2 }) :=
  wsCall_connecting_overwrites_onopen ([] : Registry Nat) c10Sock "a" "b" (.obj []) (.obj [])
    1 2 1 3 (some 2) (some 4) rfl (by decide)

end JsonRpcClient
